import Mathlib

/-!
# Verification of the MOEX options-analyzer pipeline

Shallow embedding of `src/options_analyzer.py`: the three fetchers
(`get_expiration_dates`, `get_options_data`, `get_latest_quote`), the
orchestrator loop of `analyze_options` that accumulates records per ticker,
and the pure classifier/ranker stage of `analyze_options` (offer filter,
percent deviation, moneyness state, ITM/NTM filter, discount metrics,
descending sort by discount percent).

Modelling conventions:
* Prices are `ℚ` (the Python floats); a pandas cell that may be `NaN`
  (a field missing from a zipped row, or a JSON null) is `Option ℚ`, with
  `none` for the missing/NaN case.  Pandas comparison semantics are
  modelled explicitly: `NaN != 0` is `true`, `NaN > x`, `NaN < x`,
  `NaN ≤ x` are `false`.  A missing field surfaces as a `NaN` cell only
  when the column itself exists in the merged frame, i.e. at least one
  row of the run carries the key (or holds a null there); when a consumed
  column is absent from every row, the first column access
  (`combined_df['OFFER']`, `filtered_df['STRIKE']`,
  `result_df['THEORPRICE']`) raises `KeyError`, the run aborts and there
  is no result table at all.  That crash path is outside this embedding:
  the model's domain is the runs whose merged table carries all consumed
  columns.
* A division whose float result is not a finite number (`inf` from a zero
  denominator, or `NaN` from a `NaN` operand) is modelled as `none`.
  The only comparisons the code performs on such values
  (`percent_deviation <= 10`, the descending sort key) treat `inf`/`NaN`
  as "fails `≤ 10`" and "sorts last" respectively, which `none` reproduces.
* HTTP traffic is an explicit input: each fetcher takes an `HttpResult`
  describing the outcome of its one request (network error, status code,
  JSON decode result).  The Python `try/except` blocks that turn every
  error into an empty result become total functions.
* `datetime.strptime` on `%Y-%m-%d` strings is modelled by working with
  structured `Date` values directly; `datetime` comparison is the
  lexicographic order on (year, month, day).
* `pd.sort_values('DISCOUNT_PCT', ascending=False)` sorts descending on
  the key with NaN placed last; it is modelled by an insertion sort on the
  key order `pctGe` in which `none` (NaN) is the bottom element.
-/

/-- A calendar date as parsed by `datetime.strptime(s, '%Y-%m-%d')`. -/
structure Date where
  year : Nat
  month : Nat
  day : Nat
deriving DecidableEq, Repr

/-- `datetime` comparison: lexicographic on (year, month, day). -/
def Date.leb (a b : Date) : Bool :=
  decide (a.year < b.year) ||
    (decide (a.year = b.year) &&
      (decide (a.month < b.month) ||
        (decide (a.month = b.month) && decide (a.day ≤ b.day))))

/-- Configuration constant `MAX_DATE = '2026-06-01'`. -/
def MAX_DATE : Date := ⟨2026, 6, 1⟩

/-- Configuration constant `NTM_THRESHOLD_PERCENT = 10.0`. -/
def NTM_THRESHOLD_PERCENT : ℚ := 10

/-- Outcome of one HTTP GET as seen by a fetcher: a network-level error
(`requests.exceptions.RequestException`), or a response with a status code
and a JSON body (`none` = `json.JSONDecodeError` when `.json()` is called). -/
inductive HttpResult (α : Type) where
  | netError : HttpResult α
  | response (status : Nat) (body : Option α) : HttpResult α

/-- One element of `data['expirations']['data']`; the code reads `item[1]`,
the expiration date.  `item0` stands for the other columns of the row. -/
structure ExpRow where
  item0 : String
  date : Date
deriving DecidableEq, Repr

/-- JSON body of the expirations endpoint.  `expirations = none` models a
body where `'expirations' not in data or 'data' not in data['expirations']`. -/
structure ExpirationsPayload where
  expirations : Option (List ExpRow)

/-- The `for item in data['expirations']['data']` loop: keep `item[1]`
whenever its parsed date is `<= max_date`, in upstream order. -/
def filterExpirations (rows : List ExpRow) (maxDate : Date) : List Date :=
  match rows with
  | [] => []
  | item :: rest =>
    if Date.leb item.date maxDate then
      item.date :: filterExpirations rest maxDate
    else
      filterExpirations rest maxDate

/-- `get_expiration_dates`: returns `[]` on network error, non-200 status,
JSON decode failure or missing `expirations`/`data` keys; otherwise the
dates of the upstream rows filtered to `<= MAX_DATE`. -/
def get_expiration_dates (res : HttpResult ExpirationsPayload) : List Date :=
  match res with
  | .netError => []
  | .response status body =>
    if status ≠ 200 then []
    else
      match body with
      | none => []
      | some data =>
        match data.expirations with
        | none => []
        | some rows => filterExpirations rows MAX_DATE

/-- One option row after `dict(zip(columns, row))`: the four consumed fields,
each `none` when this row's column list did not contain the field (the key
is then absent from the dict) or the cell held a JSON null.  In pandas the
value surfaces as a `NaN` cell provided the column exists in the merged
frame — some row of the run carries the key; if a consumed column is
absent from every row the later column access raises `KeyError` instead,
a crash path outside this model (see the header comment). -/
structure OptionRow where
  secid : Option String
  strike : Option ℚ
  theorprice : Option ℚ
  offer : Option ℚ
deriving DecidableEq, Repr

/-- JSON body of the option-board endpoint: the two per-side tables.
`none` models `option_type not in data or 'data' not in data[option_type]`. -/
structure BoardPayload where
  call : Option (List OptionRow)
  put : Option (List OptionRow)

/-- An option row tagged with `TICKER`, `EXP_DATE` and
`OPTION_TYPE = option_type.upper()`. -/
structure TaggedRow where
  ticker : String
  expDate : Date
  optionType : String
  secid : Option String
  strike : Option ℚ
  theorprice : Option ℚ
  offer : Option ℚ
deriving DecidableEq, Repr

/-- Tag every row of one side's table. -/
def tagRows (ticker : String) (expDate : Date) (side : String)
    (rows : Option (List OptionRow)) : List TaggedRow :=
  match rows with
  | none => []
  | some rs =>
    rs.map (fun r =>
      { ticker := ticker, expDate := expDate, optionType := side,
        secid := r.secid, strike := r.strike,
        theorprice := r.theorprice, offer := r.offer })

/-- `get_options_data`: empty on any failure; otherwise the `call` rows
followed by the `put` rows (the `for option_type in ['call', 'put']` order),
each zipped with its header list and tagged. -/
def get_options_data (ticker : String) (expDate : Date)
    (res : HttpResult BoardPayload) : List TaggedRow :=
  match res with
  | .netError => []
  | .response status body =>
    if status ≠ 200 then []
    else
      match body with
      | none => []
      | some data =>
        tagRows ticker expDate "CALL" data.call ++
          tagRows ticker expDate "PUT" data.put

/-- One candle of `data['candles']['data']`, restricted to the two consumed
columns; a `none` value is a JSON `null` in that cell. -/
structure Candle where
  close : Option ℚ
  endTime : Option String
deriving DecidableEq, Repr

/-- JSON body of the candles endpoint.  `candles = none` models
`'candles' not in data or 'data' not in data['candles']`;
`hasCloseAndEnd = false` models a `columns` list in which
`columns.index('close')` or `columns.index('end')` raises (caught by the
generic `except`, yielding `(None, None)`). -/
structure CandlesPayload where
  candles : Option (List Candle)
  hasCloseAndEnd : Bool

/-- `get_latest_quote`: `(None, None)` on any failure, absent keys, empty
candle list, or missing `close`/`end` columns; otherwise the first (most
recent, because `iss.reverse=true`) candle's close and end values. -/
def get_latest_quote (res : HttpResult CandlesPayload) :
    Option ℚ × Option String :=
  match res with
  | .netError => (none, none)
  | .response status body =>
    if status ≠ 200 then (none, none)
    else
      match body with
      | none => (none, none)
      | some data =>
        match data.candles with
        | none => (none, none)
        | some [] => (none, none)
        | some (latest :: _) =>
          if data.hasCloseAndEnd then (latest.close, latest.endTime)
          else (none, none)

/-- A merged-table record: a tagged row with the instrument's
`LAST_PRICE` / `LAST_PRICE_DATETIME` columns attached by the orchestrator
(the orchestrator only attaches a quote it checked is not `None`). -/
structure OptionRecord where
  ticker : String
  expDate : Date
  optionType : String
  secid : Option String
  strike : Option ℚ
  theorprice : Option ℚ
  offer : Option ℚ
  lastPrice : ℚ
  lastPriceDatetime : Option String
deriving DecidableEq, Repr

/-- `options_df['LAST_PRICE'] = last_price` etc. on every fetched row. -/
def attachQuote (lp : ℚ) (lpdt : Option String) (r : TaggedRow) :
    OptionRecord :=
  { ticker := r.ticker, expDate := r.expDate, optionType := r.optionType,
    secid := r.secid, strike := r.strike, theorprice := r.theorprice,
    offer := r.offer, lastPrice := lp, lastPriceDatetime := lpdt }

/-- The upstream world one pipeline run talks to: the HTTP outcome of each
of the three requests, per ticker (and per expiration date for the board). -/
structure Env where
  candles : String → HttpResult CandlesPayload
  expirations : String → HttpResult ExpirationsPayload
  board : String → Date → HttpResult BoardPayload

/-- The per-ticker body of the `for ticker in TICKERS` loop in
`analyze_options`: skip the ticker when `last_price is None`; otherwise
fetch its expiration dates and, for each, the option board, attaching the
quote to every returned row. -/
def processTicker (env : Env) (ticker : String) : List OptionRecord :=
  match get_latest_quote (env.candles ticker) with
  | (none, _) => []
  | (some lp, lpdt) =>
    (get_expiration_dates (env.expirations ticker)).flatMap
      (fun expDate =>
        (get_options_data ticker expDate (env.board ticker expDate)).map
          (attachQuote lp lpdt))

/-- The accumulation of `all_options_data` over the ticker loop followed by
`pd.concat(..., ignore_index=True)`: tickers in configured order, each
contributing its records in expiration order then row order. -/
def collectRecords (env : Env) (tickers : List String) : List OptionRecord :=
  tickers.flatMap (processTicker env)

/-- Pandas `combined_df['OFFER'] != 0`: a `NaN` cell compares unequal
to `0`, so only a literal `0` offer fails the filter. -/
def offerNonzero (r : OptionRecord) : Bool :=
  match r.offer with
  | none => true
  | some x => decide (x ≠ 0)

/-- The `PERCENT_DEVIATION` column:
`(abs(LAST_PRICE - STRIKE) / LAST_PRICE) * 100`.  `none` when `STRIKE` is
`NaN` (NaN result) or `LAST_PRICE = 0` (inf/NaN result); both fail the only
comparison performed on the column, `<= 10.0`, exactly as `none` does. -/
def percent_deviation (r : OptionRecord) : Option ℚ :=
  match r.strike with
  | none => none
  | some s =>
    if r.lastPrice = 0 then none
    else some (|r.lastPrice - s| / r.lastPrice * 100)

/-- `last_price > strike` where `strike` may be `NaN` (then `false`). -/
def gtOpt (a : ℚ) (b : Option ℚ) : Bool :=
  match b with
  | none => false
  | some x => decide (a > x)

/-- `last_price < strike` where `strike` may be `NaN` (then `false`). -/
def ltOpt (a : ℚ) (b : Option ℚ) : Bool :=
  match b with
  | none => false
  | some x => decide (a < x)

/-- `percent_deviation <= threshold` where the deviation may be
`NaN`/`inf` (then `false`). -/
def leOpt (a : Option ℚ) (b : ℚ) : Bool :=
  match a with
  | none => false
  | some x => decide (x ≤ b)

/-- `get_option_state(row)`: the moneyness rule applied to one row of the
filtered table, reading `STRIKE`, `LAST_PRICE`, `OPTION_TYPE` and the
precomputed `PERCENT_DEVIATION` column. -/
def get_option_state (strike : Option ℚ) (lastPrice : ℚ)
    (optionType : String) (percentDeviation : Option ℚ) : String :=
  if optionType = "CALL" then
    if gtOpt lastPrice strike then "ITM"
    else if leOpt percentDeviation NTM_THRESHOLD_PERCENT then "NTM"
    else "OTM"
  else if optionType = "PUT" then
    if ltOpt lastPrice strike then "ITM"
    else if leOpt percentDeviation NTM_THRESHOLD_PERCENT then "NTM"
    else "OTM"
  else "UNKNOWN"

/-- The `STATE` column of a record. -/
def stateOf (r : OptionRecord) : String :=
  get_option_state r.strike r.lastPrice r.optionType (percent_deviation r)

/-- `THEORPRICE - OFFER`; `NaN` when either operand is `NaN`. -/
def discountOf (r : OptionRecord) : Option ℚ :=
  match r.theorprice, r.offer with
  | some t, some o => some (t - o)
  | _, _ => none

/-- `(DISCOUNT / THEORPRICE) * 100`; not a finite number (hence `none`)
when `DISCOUNT` is `NaN` or `THEORPRICE` is `NaN` or `0` — the code has no
guard on a zero theoretical price. -/
def discountPctOf (r : OptionRecord) : Option ℚ :=
  match r.theorprice, r.offer with
  | some t, some o => if t = 0 then none else some ((t - o) / t * 100)
  | _, _ => none

/-- One row of `result_df` with its derived columns materialised. -/
structure ResultRow where
  record : OptionRecord
  percentDeviation : Option ℚ
  state : String
  discount : Option ℚ
  discountPct : Option ℚ
deriving DecidableEq, Repr

/-- Descending order on the `DISCOUNT_PCT` sort key:
`sort_values(..., ascending=False)` places `NaN` last (`na_position`
defaults to `'last'`), so `none` is the bottom of the order. -/
def pctGe (a b : Option ℚ) : Bool :=
  match a, b with
  | some x, some y => decide (x ≥ y)
  | some _, none => true
  | none, some _ => false
  | none, none => true

/-- Row comparison used by the final sort. -/
def rowGe (a b : ResultRow) : Bool := pctGe a.discountPct b.discountPct

/-- Insert one row into a list sorted descending by `DISCOUNT_PCT`. -/
def insertRow (r : ResultRow) : List ResultRow → List ResultRow
  | [] => [r]
  | x :: xs => if rowGe r x then r :: x :: xs else x :: insertRow r xs

/-- `result_df.sort_values('DISCOUNT_PCT', ascending=False)` as an
insertion sort on `rowGe`. -/
def sortRows : List ResultRow → List ResultRow
  | [] => []
  | x :: xs => insertRow x (sortRows xs)

/-- The pure classifier/ranker stage of `analyze_options`
(lines 197–250): offer filter, `PERCENT_DEVIATION` column, `STATE` column,
ITM/NTM filter, `DISCOUNT` and `DISCOUNT_PCT` columns, descending sort.
The early `return pd.DataFrame()` branches on an empty intermediate table
coincide with letting the empty table flow through the remaining stages.
Domain assumption: the input models a merged table that carries the
`OFFER`, `STRIKE` and `THEORPRICE` columns (each key present in at least
one row of the run), with rowwise missing values as `none`; a run whose
every row lacks one of these keys raises `KeyError` at that column's
first access and yields no result, a path outside this embedding. -/
def analyze_options (records : List OptionRecord) : List ResultRow :=
  let filtered := records.filter offerNonzero
  let result := filtered.filter
    (fun r => stateOf r = "ITM" || stateOf r = "NTM")
  let rows := result.map (fun r =>
    { record := r, percentDeviation := percent_deviation r,
      state := stateOf r,
      discount := discountOf r,
      discountPct := discountPctOf r })
  sortRows rows

/-- The whole pipeline: orchestrator fetch/merge then classify/rank. -/
def pipeline (env : Env) (tickers : List String) : List ResultRow :=
  analyze_options (collectRecords env tickers)

/-- The moneyness rule exactly as the specification phrases it, over plain
prices (§4.5): CALL is ITM when `last_price > strike`, else NTM when
`|last_price − strike| / last_price × 100 ≤ 10.0`, else OTM; dually for
PUT with `<`; any other side is UNKNOWN.  Stated for comparison with
`get_option_state` / `stateOf`, which are translated from the code. -/
def spec_moneyness (side : String) (lastPrice strike : ℚ) : String :=
  if side = "CALL" then
    if lastPrice > strike then "ITM"
    else if |lastPrice - strike| / lastPrice * 100 ≤ 10 then "NTM"
    else "OTM"
  else if side = "PUT" then
    if lastPrice < strike then "ITM"
    else if |lastPrice - strike| / lastPrice * 100 ≤ 10 then "NTM"
    else "OTM"
  else "UNKNOWN"

/-! ## Concrete fixtures -/

/-- A CALL with a zero theoretical price and a live offer; in the money
(`last_price 100 > strike 95`). -/
def recTheorZero : OptionRecord :=
  { ticker := "SBER", expDate := ⟨2025, 12, 19⟩, optionType := "CALL",
    secid := some "SR95CE5A", strike := some 95, theorprice := some 0,
    offer := some 5, lastPrice := 100, lastPriceDatetime := some "t" }

/-- An upstream board row whose column list lacked `THEORPRICE`. -/
def rowNoTheor : OptionRow :=
  { secid := some "S1", strike := some 95, theorprice := none,
    offer := some 5 }

/-- A complete upstream board row; its presence keeps the `THEORPRICE`
column in the merged frame, so `rowNoTheor`'s cell is a genuine `NaN`
rather than a whole-column `KeyError`. -/
def rowWithTheor : OptionRow :=
  { secid := some "S0", strike := some 90, theorprice := some 8,
    offer := some 4 }

/-- A healthy upstream world for one ticker whose board returns two CALL
rows: a complete one and one lacking the `THEORPRICE` field. -/
def envNoTheor : Env :=
  { candles := fun _ => .response 200
      (some { candles := some [{ close := some 100, endTime := some "t" }],
              hasCloseAndEnd := true }),
    expirations := fun _ => .response 200
      (some { expirations := some [{ item0 := "", date := ⟨2025, 12, 19⟩ }] }),
    board := fun _ _ => .response 200
      (some { call := some [rowWithTheor, rowNoTheor], put := none }) }

/-- An ITM CALL priced as in the round-trip scenario:
`theoretical 12.50`, `offer 10.00`. -/
def recRoundTrip : OptionRecord :=
  { ticker := "SBER", expDate := ⟨2025, 12, 19⟩, optionType := "CALL",
    secid := some "X9", strike := some 95, theorprice := some (25 / 2),
    offer := some 10, lastPrice := 100, lastPriceDatetime := some "t" }

/-- An ordinary surviving ITM CALL: theoretical 10, offer 5. -/
def recSurvivor : OptionRecord :=
  { ticker := "GAZP", expDate := ⟨2025, 12, 19⟩, optionType := "CALL",
    secid := some "X3", strike := some 95, theorprice := some 10,
    offer := some 5, lastPrice := 100, lastPriceDatetime := some "t" }

/-- An ITM CALL quoted at a strictly negative offer. -/
def recNegOffer : OptionRecord :=
  { ticker := "LKOH", expDate := ⟨2025, 12, 19⟩, optionType := "CALL",
    secid := some "X10", strike := some 95, theorprice := some 6,
    offer := some (-3), lastPrice := 100, lastPriceDatetime := some "t" }

/-- A PUT used to instantiate the classification rule. -/
def recPutNtm : OptionRecord :=
  { ticker := "MOEX", expDate := ⟨2025, 12, 19⟩, optionType := "PUT",
    secid := some "X2", strike := some 100, theorprice := some 4,
    offer := some 3, lastPrice := 95, lastPriceDatetime := some "t" }

/-- A world in which every request fails at the network level. -/
def envAllDown : Env :=
  { candles := fun _ => .netError,
    expirations := fun _ => .netError,
    board := fun _ _ => .netError }

/-- The ranked row produced for `recSurvivor`. -/
def rowSurvivor : ResultRow :=
  { record := recSurvivor, percentDeviation := some 5, state := "ITM",
    discount := some 5, discountPct := some 50 }

/-- The ranked row produced for `recRoundTrip`:
`discount = 2.50`, `discount_pct = 20.00`. -/
def rowRoundTrip : ResultRow :=
  { record := recRoundTrip, percentDeviation := some 5, state := "ITM",
    discount := some (5 / 2), discountPct := some 20 }

/-! ## Lemmas about the final sort -/

theorem pctGe_total (a b : Option ℚ) : pctGe a b = true ∨ pctGe b a = true := by
  cases a <;> cases b <;> simp [pctGe]
  exact le_total _ _

theorem pctGe_trans {a b c : Option ℚ} (h1 : pctGe a b = true)
    (h2 : pctGe b c = true) : pctGe a c = true := by
  cases a <;> cases b <;> cases c <;> simp_all [pctGe]
  exact le_trans h2 h1

theorem rowGe_total (a b : ResultRow) : rowGe a b = true ∨ rowGe b a = true :=
  pctGe_total _ _

theorem rowGe_trans {a b c : ResultRow} (h1 : rowGe a b = true)
    (h2 : rowGe b c = true) : rowGe a c = true :=
  pctGe_trans h1 h2

theorem mem_insertRow {a r : ResultRow} {l : List ResultRow} :
    a ∈ insertRow r l ↔ a = r ∨ a ∈ l := by
  induction l with
  | nil => simp [insertRow]
  | cons x xs ih =>
    by_cases h : rowGe r x = true
    · simp only [insertRow, if_pos h, List.mem_cons]
    · simp only [insertRow, if_neg h, List.mem_cons, ih]
      tauto

theorem mem_sortRows {a : ResultRow} {l : List ResultRow} :
    a ∈ sortRows l ↔ a ∈ l := by
  induction l with
  | nil => simp [sortRows]
  | cons x xs ih => simp [sortRows, mem_insertRow, ih]

theorem pairwise_insertRow {r : ResultRow} {l : List ResultRow}
    (h : l.Pairwise (fun a b => rowGe a b = true)) :
    (insertRow r l).Pairwise (fun a b => rowGe a b = true) := by
  induction l with
  | nil => simp [insertRow]
  | cons x xs ih =>
    rw [List.pairwise_cons] at h
    obtain ⟨hx, hxs⟩ := h
    by_cases hge : rowGe r x = true
    · rw [insertRow, if_pos hge, List.pairwise_cons]
      refine ⟨?_, List.pairwise_cons.mpr ⟨hx, hxs⟩⟩
      intro y hy
      rcases List.mem_cons.mp hy with rfl | hy
      · exact hge
      · exact rowGe_trans hge (hx y hy)
    · have hxr : rowGe x r = true := (rowGe_total r x).resolve_left hge
      rw [insertRow, if_neg hge, List.pairwise_cons]
      refine ⟨?_, ih hxs⟩
      intro y hy
      rcases mem_insertRow.mp hy with rfl | hy
      · exact hxr
      · exact hx y hy

theorem pairwise_sortRows (l : List ResultRow) :
    (sortRows l).Pairwise (fun a b => rowGe a b = true) := by
  induction l with
  | nil => simp [sortRows]
  | cons x xs ih => exact pairwise_insertRow ih

/-- Membership in the ranked output, unfolded through the sort, the map
that attaches the derived columns, and the two filters. -/
theorem mem_analyze_options {row : ResultRow} {records : List OptionRecord} :
    row ∈ analyze_options records ↔
      ∃ r ∈ records, offerNonzero r = true ∧
        (stateOf r = "ITM" ∨ stateOf r = "NTM") ∧
        row = { record := r, percentDeviation := percent_deviation r,
                state := stateOf r, discount := discountOf r,
                discountPct := discountPctOf r } := by
  simp only [analyze_options, mem_sortRows, List.mem_map, List.mem_filter,
    Bool.or_eq_true, decide_eq_true_eq]
  constructor
  · rintro ⟨r, ⟨⟨hr, hoff⟩, hst⟩, rfl⟩
    exact ⟨r, hr, hoff, hst, rfl⟩
  · rintro ⟨r, hr, hoff, hst, rfl⟩
    exact ⟨r, ⟨⟨hr, hoff⟩, hst⟩, rfl⟩

/-! ## Evaluation lemmas for the concrete fixtures -/

theorem analyze_recSurvivor_eval :
    analyze_options [recSurvivor] = [rowSurvivor] := by
  norm_num [analyze_options, offerNonzero, stateOf, get_option_state,
    percent_deviation, gtOpt, ltOpt, leOpt, discountOf, discountPctOf,
    sortRows, insertRow, rowGe, pctGe, NTM_THRESHOLD_PERCENT,
    recSurvivor, rowSurvivor]

theorem stateOf_recNegOffer : stateOf recNegOffer = "ITM" := by
  norm_num [stateOf, get_option_state, percent_deviation, gtOpt, ltOpt,
    leOpt, NTM_THRESHOLD_PERCENT, recNegOffer]

/-! ## Claims -/

/-- **C1** — refuted by the code: the classifier/ranker has no guard on a
zero theoretical price.  `recTheorZero` has `theorprice = 0` and a live
offer; it survives the offer filter, is classified ITM, and appears in the
final ranked result with an undefined (non-finite) discount percent. -/
theorem theorprice_zero_reaches_result :
    recTheorZero.theorprice = some 0 ∧
    analyze_options [recTheorZero] =
      [{ record := recTheorZero, percentDeviation := some 5, state := "ITM",
         discount := some (-5), discountPct := none }] := by
  refine ⟨rfl, ?_⟩
  norm_num [analyze_options, offerNonzero, stateOf, get_option_state,
    percent_deviation, gtOpt, ltOpt, leOpt, discountOf, discountPctOf,
    sortRows, insertRow, rowGe, pctGe, NTM_THRESHOLD_PERCENT, recTheorZero]

/-- **C2** — the classifier implements exactly the moneyness rule of the
specification: on a record with a present strike and a non-zero last price
it agrees with `spec_moneyness` (the rule as the spec words it, including
the `percent_deviation` formula), and any side other than CALL/PUT yields
UNKNOWN. -/
theorem get_option_state_matches_spec (r : OptionRecord) :
    (∀ s : ℚ, r.strike = some s → r.lastPrice ≠ 0 →
      stateOf r = spec_moneyness r.optionType r.lastPrice s) ∧
    (r.optionType ≠ "CALL" → r.optionType ≠ "PUT" →
      stateOf r = "UNKNOWN") := by
  constructor
  · intro s hs hlp
    simp only [stateOf, get_option_state, spec_moneyness, percent_deviation,
      hs, hlp, if_false, gtOpt, ltOpt, leOpt, NTM_THRESHOLD_PERCENT,
      decide_eq_true_eq, if_neg hlp]
  · intro h1 h2
    simp [stateOf, get_option_state, h1, h2]

/-- Witness for C2: a PUT with strike 100 against a last price of 95. -/
theorem get_option_state_matches_spec_witness :
    stateOf recPutNtm =
      spec_moneyness recPutNtm.optionType recPutNtm.lastPrice 100 :=
  (get_option_state_matches_spec recPutNtm).1 100 rfl (by decide)

/-- **C3** — every row of the final ranked result has an offer different
from literal zero and a moneyness state that is ITM or NTM. -/
theorem result_offer_and_state (records : List OptionRecord)
    (row : ResultRow) (h : row ∈ analyze_options records) :
    row.record.offer ≠ some 0 ∧
    (row.state = "ITM" ∨ row.state = "NTM") := by
  obtain ⟨r, _, hoff, hst, rfl⟩ := mem_analyze_options.mp h
  refine ⟨?_, hst⟩
  intro hzero
  have hz : r.offer = some 0 := hzero
  simp [offerNonzero, hz] at hoff

/-- Witness for C3: the single ranked row of a one-record run. -/
theorem result_offer_and_state_witness :
    rowSurvivor.record.offer ≠ some 0 ∧
    (rowSurvivor.state = "ITM" ∨ rowSurvivor.state = "NTM") :=
  result_offer_and_state [recSurvivor] rowSurvivor
    (by simp [analyze_recSurvivor_eval])

/-- **C4** — refuted by the code: a board row lacking the `THEORPRICE`
field does not crash the merge, but it is NOT excluded from the ranked
output.  In `envNoTheor` the board returns a complete row alongside a
row with no theoretical price (the complete row keeps the `THEORPRICE`
column in the merged frame, so the incomplete row's cell is `NaN`); the
pipeline ranks BOTH rows, carrying an undefined (NaN) discount and
discount percent on the incomplete one, placed last by the sort.  (When
the field is instead missing from every row of the run, the source
raises `KeyError` at `result_df['THEORPRICE']` and aborts with no result
at all — equally contrary to the claim's fail-soft exclusion, but a
crash path outside this embedding.) -/
theorem missing_theorprice_reaches_result :
    rowNoTheor.theorprice = none ∧
    pipeline envNoTheor ["T"] =
      [{ record := { ticker := "T", expDate := ⟨2025, 12, 19⟩,
                     optionType := "CALL", secid := some "S0",
                     strike := some 90, theorprice := some 8,
                     offer := some 4, lastPrice := 100,
                     lastPriceDatetime := some "t" },
         percentDeviation := some 10, state := "ITM",
         discount := some 4, discountPct := some 50 },
       { record := { ticker := "T", expDate := ⟨2025, 12, 19⟩,
                     optionType := "CALL", secid := some "S1",
                     strike := some 95, theorprice := none,
                     offer := some 5, lastPrice := 100,
                     lastPriceDatetime := some "t" },
         percentDeviation := some 5, state := "ITM",
         discount := none, discountPct := none }] := by
  refine ⟨rfl, ?_⟩
  norm_num [pipeline, collectRecords, processTicker, get_latest_quote,
    get_expiration_dates, filterExpirations, get_options_data, tagRows,
    attachQuote, envNoTheor, rowNoTheor, rowWithTheor, MAX_DATE, Date.leb,
    analyze_options, offerNonzero, stateOf, get_option_state,
    percent_deviation, gtOpt, ltOpt, leOpt, discountOf, discountPctOf,
    sortRows, insertRow, rowGe, pctGe, NTM_THRESHOLD_PERCENT]

/-- **C5** — the final ranked result is ordered non-increasingly by
discount percent: each consecutive pair satisfies the descending key
order (`none`, the undefined percent, is the bottom of the order and is
placed last, as pandas places NaN). -/
theorem result_sorted_desc (records : List OptionRecord) :
    List.Chain'
      (fun a b => pctGe a.discountPct b.discountPct = true)
      (analyze_options records) :=
  (pairwise_sortRows _).chain'

/-- **C6** — the three fetchers absorb every failure outcome: network
error, any non-200 status, a JSON decode failure, and missing expected
fields all yield an empty list (expirations, option board) or the
unavailable pair `(none, none)` (latest quote); as total functions they
raise nothing to the orchestrator. -/
theorem fetchers_fail_soft :
    (get_expiration_dates .netError = [] ∧
     (∀ (s : Nat) (b : Option ExpirationsPayload),
        s ≠ 200 → get_expiration_dates (.response s b) = []) ∧
     get_expiration_dates (.response 200 none) = [] ∧
     get_expiration_dates (.response 200 (some ⟨none⟩)) = []) ∧
    (∀ (t : String) (d : Date),
      get_options_data t d .netError = [] ∧
      (∀ (s : Nat) (b : Option BoardPayload),
         s ≠ 200 → get_options_data t d (.response s b) = []) ∧
      get_options_data t d (.response 200 none) = [] ∧
      get_options_data t d (.response 200 (some ⟨none, none⟩)) = []) ∧
    (get_latest_quote .netError = (none, none) ∧
     (∀ (s : Nat) (b : Option CandlesPayload),
        s ≠ 200 → get_latest_quote (.response s b) = (none, none)) ∧
     get_latest_quote (.response 200 none) = (none, none) ∧
     (∀ hc : Bool,
        get_latest_quote (.response 200 (some ⟨none, hc⟩)) = (none, none)) ∧
     (∀ hc : Bool,
        get_latest_quote (.response 200 (some ⟨some [], hc⟩)) =
          (none, none)) ∧
     (∀ cs : List Candle,
        get_latest_quote (.response 200 (some ⟨some cs, false⟩)) =
          (none, none))) := by
  refine ⟨⟨rfl, ?_, rfl, rfl⟩, ?_, rfl, ?_, rfl, fun hc => rfl,
    fun hc => rfl, ?_⟩
  · intro s b hs
    simp [get_expiration_dates, hs]
  · intro t d
    refine ⟨rfl, ?_, rfl, rfl⟩
    intro s b hs
    simp [get_options_data, hs]
  · intro s b hs
    simp [get_latest_quote, hs]
  · intro cs
    cases cs <;> rfl

/-- Witness for C6: concrete failing responses for each fetcher. -/
theorem fetchers_fail_soft_witness :
    get_expiration_dates (.response 404 none) = [] ∧
    get_options_data "SBER" ⟨2025, 12, 19⟩ (.response 500 none) = [] ∧
    get_latest_quote (.response 503 none) = (none, none) :=
  ⟨fetchers_fail_soft.1.2.1 404 none (by decide),
   (fetchers_fail_soft.2.1 "SBER" ⟨2025, 12, 19⟩).2.1 500 none (by decide),
   fetchers_fail_soft.2.2.2.1 503 none (by decide)⟩

/-- **C7** — on a well-formed upstream response, `get_expiration_dates`
returns exactly the dates no later than `MAX_DATE` (the cutoff itself
included, since the comparison is `<=`), as the order-preserving filter
of the upstream row order — a sublist, never re-sorted. -/
theorem expirations_filtered_in_order (rows : List ExpRow) :
    get_expiration_dates (.response 200 (some ⟨some rows⟩)) =
      (rows.map ExpRow.date).filter (fun d => Date.leb d MAX_DATE) ∧
    (get_expiration_dates
        (.response 200 (some ⟨some rows⟩))).Sublist
      (rows.map ExpRow.date) := by
  have key : ∀ rs : List ExpRow, filterExpirations rs MAX_DATE =
      (rs.map ExpRow.date).filter (fun d => Date.leb d MAX_DATE) := by
    intro rs
    induction rs with
    | nil => rfl
    | cons x xs ih =>
      by_cases hx : Date.leb x.date MAX_DATE = true
      · simp [filterExpirations, hx, ih, List.filter_cons]
      · simp [filterExpirations, hx, ih, List.filter_cons]
  have hmain : get_expiration_dates (.response 200 (some ⟨some rows⟩)) =
      (rows.map ExpRow.date).filter (fun d => Date.leb d MAX_DATE) := by
    simp [get_expiration_dates, key]
  exact ⟨hmain, hmain ▸ List.filter_sublist _⟩

/-- **C8** — when the underlying quote of a ticker is unavailable
(`last_price is None`), the orchestrator contributes zero records for it
and the run over the remaining tickers, in configured order, is exactly
what it would have been without that ticker. -/
theorem orchestrator_skips_no_quote (env : Env) (t : String)
    (pre post : List String)
    (h : (get_latest_quote (env.candles t)).1 = none) :
    processTicker env t = [] ∧
    collectRecords env (pre ++ t :: post) =
      collectRecords env pre ++ collectRecords env post := by
  have hp : processTicker env t = [] := by
    have hq := h
    cases hcase : get_latest_quote (env.candles t) with
    | mk q1 q2 =>
      rw [hcase] at hq
      cases q1 with
      | none => simp [processTicker, hcase]
      | some lp => simp at hq
  refine ⟨hp, ?_⟩
  simp [collectRecords, hp]

/-- Witness for C8: a fully unreachable upstream for ticker SBER. -/
theorem orchestrator_skips_no_quote_witness :
    processTicker envAllDown "SBER" = [] ∧
    collectRecords envAllDown (["GAZP"] ++ "SBER" :: ["LKOH"]) =
      collectRecords envAllDown ["GAZP"] ++ collectRecords envAllDown ["LKOH"] :=
  orchestrator_skips_no_quote envAllDown "SBER" ["GAZP"] ["LKOH"] rfl

/-- **C9** — on every ranked row whose theoretical price `t` and offer `o`
are present with `t ≠ 0`, the carried metrics are
`discount = t − o` and `discount_pct = (t − o) / t × 100`; the round-trip
fixture (`theoretical 12.50`, `offer 10.00`) yields exactly
`discount = 2.50` and `discount_pct = 20.00` (exact in `ℚ`, hence within
any positive tolerance). -/
theorem discount_formula_and_roundtrip :
    (∀ (records : List OptionRecord) (row : ResultRow) (t o : ℚ),
      row ∈ analyze_options records →
      row.record.theorprice = some t → row.record.offer = some o →
      t ≠ 0 →
      row.discount = some (t - o) ∧
      row.discountPct = some ((t - o) / t * 100)) ∧
    analyze_options [recRoundTrip] = [rowRoundTrip] ∧
    rowRoundTrip.discount = some (5 / 2) ∧
    rowRoundTrip.discountPct = some 20 := by
  refine ⟨?_, ?_, rfl, rfl⟩
  · intro records row t o hmem ht ho htz
    obtain ⟨r, _, _, _, rfl⟩ := mem_analyze_options.mp hmem
    have ht' : r.theorprice = some t := ht
    have ho' : r.offer = some o := ho
    constructor
    · simp [discountOf, ht', ho']
    · simp [discountPctOf, ht', ho', htz]
  · norm_num [analyze_options, offerNonzero, stateOf, get_option_state,
      percent_deviation, gtOpt, ltOpt, leOpt, discountOf, discountPctOf,
      sortRows, insertRow, rowGe, pctGe, NTM_THRESHOLD_PERCENT,
      recRoundTrip, rowRoundTrip]

/-- Witness for C9: the formulas instantiated on the round-trip fixture. -/
theorem discount_formula_and_roundtrip_witness :
    rowRoundTrip.discount = some ((25 / 2 : ℚ) - 10) ∧
    rowRoundTrip.discountPct =
      some (((25 / 2 : ℚ) - 10) / (25 / 2) * 100) :=
  discount_formula_and_roundtrip.1 [recRoundTrip] rowRoundTrip
    (25 / 2) 10
    (by simp [discount_formula_and_roundtrip.2.1])
    rfl rfl (by norm_num)

/-- **C10** — the offer filter removes a record exactly when its offer is
literally zero; a record with a strictly negative offer that classifies
ITM or NTM reaches the ranked output, with its discount metrics computed
from that negative offer. -/
theorem offer_filter_iff_zero :
    (∀ r : OptionRecord, offerNonzero r = false ↔ r.offer = some 0) ∧
    (∀ (records : List OptionRecord) (r : OptionRecord) (q : ℚ),
      r ∈ records → r.offer = some q → q < 0 →
      (stateOf r = "ITM" ∨ stateOf r = "NTM") →
      ∃ row ∈ analyze_options records,
        row.record = r ∧ row.discount = discountOf r ∧
        row.discountPct = discountPctOf r) := by
  constructor
  · intro r
    cases hr : r.offer with
    | none => simp [offerNonzero, hr]
    | some x => simp [offerNonzero, hr]
  · intro records r q hmem ho hq hst
    refine ⟨{ record := r, percentDeviation := percent_deviation r,
              state := stateOf r, discount := discountOf r,
              discountPct := discountPctOf r }, ?_, rfl, rfl, rfl⟩
    refine mem_analyze_options.mpr ⟨r, hmem, ?_, hst, rfl⟩
    simp [offerNonzero, ho, ne_of_lt hq]

/-- Witness for C10: an ITM CALL offered at −3 appears in the output. -/
theorem offer_filter_iff_zero_witness :
    ∃ row ∈ analyze_options [recNegOffer],
      row.record = recNegOffer ∧ row.discount = discountOf recNegOffer ∧
      row.discountPct = discountPctOf recNegOffer :=
  offer_filter_iff_zero.2 [recNegOffer] recNegOffer (-3)
    (by simp) rfl (by decide) (Or.inl stateOf_recNegOffer)
